import Mathlib

/-!
Verification of the prediction-sdk Safe-proxy derivation core.

Shallow embedding of the TypeScript sources:
  packages/polymarket/src/safe.ts    (postJsonRpc, isGnosisSafe, getSafeProxyAddress)
  packages/polymarket/src/config.ts  (factory address, default signature, error codes)
  packages/polymarket/src/utils.ts   (getFunctionSelector, encodeAddress, decodeAddress)
  packages/polymarket/src/types.ts   (JsonRpcRequest, JsonRpcResponse, JsonRpcError)
  src/polymarket.ts                  (approvalAll, isGnosisSafe)

JavaScript strings are modelled as lists of characters.  External effects
(the keccak-256 hash behind ethers.id, the HTTP fetch, the provider's
getCode, the mined transaction receipt) are passed in as explicit function
or value parameters; everything else is translated directly from the source.
-/

/-- JavaScript strings are modelled as lists of characters. -/
abbrev Str := List Char

/-- JS `String.prototype.toLowerCase()`, restricted to the ASCII range (the
only characters that occur in hex addresses, hex results and the `0x`/`0X`
prefixes this code manipulates).  `Char.toLower` lowers exactly `A`-`Z`. -/
def jsToLower (s : Str) : Str := s.map Char.toLower

/-- JS `s.replace(/^0x/, "")`: removes a single leading, case-sensitive
`0x` and leaves every other string unchanged. -/
def strip0x (s : Str) : Str :=
  match s with
  | c :: d :: rest => if c = '0' ∧ d = 'x' then rest else c :: d :: rest
  | other => other

/-- JS `s.padStart(n, c)` for a one-character pad string: left-pads `s`
with `c` up to length `n`, returning `s` unchanged when already longer. -/
def jsPadStart (s : Str) (n : Nat) (c : Char) : Str :=
  List.replicate (n - s.length) c ++ s

/-- JS `s.slice(-n)` for `n > 0`: the last `n` characters of `s`, or all
of `s` when it is shorter than `n`. -/
def jsSliceLast (s : Str) (n : Nat) : Str := s.drop (s.length - n)

/-- JS template interpolation `${i}` of an integer-valued number. -/
def jsNumToStr (i : Int) : Str := (toString i).toList

/-- config.ts: `SAFE_PROXY_FACTORY_ADDRESS`. -/
def SAFE_PROXY_FACTORY_ADDRESS : Str :=
  "0xaacFeEa03eb1561C4e67d661e40682Bd20E3541b".toList

/-- config.ts: `COMPUTE_PROXY_ADDRESS_FUNCTION_SIGNATURE`. -/
def COMPUTE_PROXY_ADDRESS_FUNCTION_SIGNATURE : Str :=
  "computeProxyAddress(address)".toList

/-- config.ts: `ERROR_CODES.RPC_REQUEST_FAILED`. -/
def RPC_REQUEST_FAILED : Str := "RPC_REQUEST_FAILED".toList

/-- config.ts: `ERROR_CODES.RPC_RESPONSE_EMPTY`. -/
def RPC_RESPONSE_EMPTY : Str := "RPC_RESPONSE_EMPTY".toList

/-- config.ts: `ERROR_CODES.RPC_ERROR`. -/
def RPC_ERROR : Str := "RPC_ERROR".toList

/-- config.ts: `ERROR_CODES.RPC_INVALID_RESULT`. -/
def RPC_INVALID_RESULT : Str := "RPC_INVALID_RESULT".toList

/-- utils.ts `getFunctionSelector`: `ethers.id` (the keccak-256 hash of the
signature as a `0x`-prefixed hex string) is an external library call and is
passed in as a parameter; the selector is `hash.slice(0, 10)`. -/
def getFunctionSelector (ethersId : Str → Str) (functionSignature : Str) : Str :=
  (ethersId functionSignature).take 10

/-- utils.ts `encodeAddress`:
`address.toLowerCase().replace(/^0x/, "").padStart(64, "0")`. -/
def encodeAddress (address : Str) : Str :=
  jsPadStart (strip0x (jsToLower address)) 64 '0'

/-- utils.ts `decodeAddress`:
`"0x" + hexResult.replace(/^0x/, "").slice(-40)`. -/
def decodeAddress (hexResult : Str) : Str :=
  '0' :: 'x' :: jsSliceLast (strip0x hexResult) 40

/-- types.ts `JsonRpcError` (the unused optional `data?: unknown` field is
omitted). -/
structure JsonRpcError where
  code : Int
  message : Str

/-- types.ts `JsonRpcResponse`; every field is optional in the source. -/
structure JsonRpcResponse where
  jsonrpc : Option Str
  result : Option Str
  error : Option JsonRpcError
  id : Option Int

/-- types.ts `JsonRpcRequest`, with `EthCallParams` inlined: `paramsTo` and
`paramsData` are the fields of the first params entry and `paramsBlockTag`
is the second, type-fixed to the literal string `latest` in the source. -/
structure JsonRpcRequest where
  jsonrpc : Str
  method : Str
  paramsTo : Str
  paramsData : Str
  paramsBlockTag : Str
  id : Nat

/-- The observable outcome of the JS `fetch` / `response.json()` pair in
postJsonRpc: `ok` is `response.ok`, and `jsonBody` is the parsed body, or
`none` when `response.json()` throws (empty or unparsable body). -/
structure HttpResponse where
  ok : Bool
  jsonBody : Option JsonRpcResponse

/-- safe.ts `postJsonRpc`, with the network modelled as the parameter
`fetch : rpcUrl → rpcRequest → HttpResponse`: throws RPC_REQUEST_FAILED on
a non-ok HTTP response, RPC_RESPONSE_EMPTY when the body does not parse,
and otherwise returns the parsed body cast to JsonRpcResponse. -/
def postJsonRpc (fetch : Str → JsonRpcRequest → HttpResponse)
    (rpcUrl : Str) (rpcRequest : JsonRpcRequest) : Except Str JsonRpcResponse :=
  let response := fetch rpcUrl rpcRequest
  if !response.ok then Except.error RPC_REQUEST_FAILED
  else
    match response.jsonBody with
    | some parsed => Except.ok parsed
    | none => Except.error RPC_RESPONSE_EMPTY

/-- The optional `options` argument of safe.ts `getSafeProxyAddress`
(fields in source order). -/
structure SafeProxyOptions where
  safeProxyFactoryAddress : Option Str
  functionSignature : Option Str

/-- JS `v || dflt` on an optional string: `undefined` and the empty string
are both falsy, so either selects the default. -/
def jsOrStr (v : Option Str) (dflt : Str) : Str :=
  match v with
  | some s => if s = [] then dflt else s
  | none => dflt

/-- The `rpcRequest` value built inside safe.ts `getSafeProxyAddress`
(lines 80-101), lifted to a top-level definition so theorems can name the
request the function submits.  `ethersId` is the external keccak hash. -/
def safeRpcRequest (ethersId : Str → Str) (walletAddress : Str)
    (options : Option SafeProxyOptions) : JsonRpcRequest :=
  let functionSignature :=
    jsOrStr (options.bind SafeProxyOptions.functionSignature)
      COMPUTE_PROXY_ADDRESS_FUNCTION_SIGNATURE
  let safeProxyFactoryAddress :=
    jsOrStr (options.bind SafeProxyOptions.safeProxyFactoryAddress)
      SAFE_PROXY_FACTORY_ADDRESS
  let functionSelector := getFunctionSelector ethersId functionSignature
  let encodedAddress := encodeAddress walletAddress
  let data := functionSelector ++ encodedAddress
  -- fields: jsonrpc, method, paramsTo, paramsData, paramsBlockTag, id
  ⟨"2.0".toList, "eth_call".toList, safeProxyFactoryAddress, data,
    "latest".toList, 1⟩

/-- safe.ts `getSafeProxyAddress`: builds the request, posts it, then maps
the parsed response: a truthy `error` throws `RPC_ERROR:<code>`, a falsy
`result` (absent or empty string) throws RPC_INVALID_RESULT, and otherwise
the result is decoded into an address. -/
def getSafeProxyAddress (ethersId : Str → Str)
    (fetch : Str → JsonRpcRequest → HttpResponse)
    (rpcUrl walletAddress : Str) (options : Option SafeProxyOptions) :
    Except Str Str :=
  let rpcRequest := safeRpcRequest ethersId walletAddress options
  match postJsonRpc fetch rpcUrl rpcRequest with
  | Except.error e => Except.error e
  | Except.ok rpcResponse =>
    match rpcResponse.error with
    | some err => Except.error (RPC_ERROR ++ ':' :: jsNumToStr err.code)
    | none =>
      match rpcResponse.result with
      | none => Except.error RPC_INVALID_RESULT
      | some hexResult =>
        if hexResult = [] then Except.error RPC_INVALID_RESULT
        else Except.ok (decodeAddress hexResult)

/-- safe.ts `isGnosisSafe` (the copy in src/polymarket.ts lines 244-251 is
logically identical): the provider built from the RPC URL is modelled as
`getCode : rpcUrl → address → bytecode`; the address is a contract iff the
returned bytecode differs from the literal string `0x`. -/
def isGnosisSafe (getCode : Str → Str → Str) (address : Str) (rpcUrl : Str) :
    Bool :=
  let code := getCode rpcUrl address
  code != "0x".toList

/-- The receipt produced by awaiting `tx.wait()` in src/polymarket.ts
`approvalAll`; ethers v5 types `status` as an optional number. -/
structure TxReceipt where
  status : Option Nat

/-- src/polymarket.ts `approvalAll`, lines 180-196: after the mined
transaction (modelled by its `receipt`) it returns true when the receipt
status strictly equals 1 and the `isApproved()` re-check (modelled by the
boolean `recheckApproved`) is true, and otherwise throws `Approval failed`.
The gas-price computation before the send does not affect this outcome. -/
def approvalAll (receipt : TxReceipt) (recheckApproved : Bool) :
    Except Str Bool :=
  if receipt.status == some 1 && recheckApproved then Except.ok true
  else Except.error ("Approval failed".toList)

/-- The 22 hex-digit characters, for the validity predicates below. -/
def hexDigits : Str := "0123456789abcdefABCDEF".toList

/-- A character is a hex digit (either case). -/
def isHexChar (c : Char) : Bool := decide (c ∈ hexDigits)

/-- A syntactically valid 20-byte address string: a `0x` (or `0X`) prefix
followed by exactly 40 hex characters of any case. -/
def isValidAddress (addr : Str) : Bool :=
  match addr with
  | '0' :: 'x' :: core => core.length == 40 && core.all isHexChar
  | '0' :: 'X' :: core => core.length == 40 && core.all isHexChar
  | _ => false

/-! ## Helper lemmas -/

theorem strip0x_cons0x (rest : Str) : strip0x ('0' :: 'x' :: rest) = rest := by
  simp [strip0x]

theorem strip0x_cons_of_not0x (c d : Char) (rest : Str)
    (h : ¬(c = '0' ∧ d = 'x')) : strip0x (c :: d :: rest) = c :: d :: rest := by
  simp only [strip0x, if_neg h]

theorem toLower_hex_ne_x : ∀ c ∈ hexDigits, Char.toLower c ≠ 'x' := by decide

theorem strip0x_jsToLower_hex (core : Str) (hall : core.all isHexChar = true) :
    strip0x (jsToLower core) = jsToLower core := by
  match core with
  | [] => rfl
  | [c] => rfl
  | c :: d :: rest =>
    simp only [List.all_cons, Bool.and_eq_true] at hall
    have hd : Char.toLower d ≠ 'x' :=
      toLower_hex_ne_x d (of_decide_eq_true hall.2.1)
    simp only [jsToLower, List.map_cons]
    exact strip0x_cons_of_not0x _ _ _ (fun hc => hd hc.2)

theorem jsPadStart_of_len40 (s : Str) (h : s.length = 40) :
    jsPadStart s 64 '0' = List.replicate 24 '0' ++ s := by
  simp [jsPadStart, h]

theorem decodeAddress_replicate24 (m : Str) (h : m.length = 40) :
    decodeAddress (List.replicate 24 '0' ++ m) = '0' :: 'x' :: m := by
  have hs : strip0x (List.replicate 24 '0' ++ m) = List.replicate 24 '0' ++ m := by
    rw [show List.replicate 24 '0' ++ m = '0' :: '0' :: (List.replicate 22 '0' ++ m) from rfl]
    exact strip0x_cons_of_not0x _ _ _ (by decide)
  have hlen : (List.replicate 24 '0' ++ m).length = 64 := by
    simp [List.length_append, h]
  unfold decodeAddress jsSliceLast
  rw [hs, hlen]
  rw [show (64 : Nat) - 40 = (List.replicate 24 '0').length from by simp]
  rw [List.drop_left]

/-! ## Claim theorems -/

/-- Claim C4: postJsonRpc fails with RPC_REQUEST_FAILED exactly when the
HTTP response is not ok, fails with RPC_RESPONSE_EMPTY exactly when the
response is ok but its body cannot be parsed as JSON, and in every other
case returns the parsed body as the JSON-RPC response. -/
theorem claim_C4 (fetch : Str → JsonRpcRequest → HttpResponse) (rpcUrl : Str)
    (req : JsonRpcRequest) :
    (postJsonRpc fetch rpcUrl req = Except.error RPC_REQUEST_FAILED ↔
      (fetch rpcUrl req).ok = false) ∧
    (postJsonRpc fetch rpcUrl req = Except.error RPC_RESPONSE_EMPTY ↔
      ((fetch rpcUrl req).ok = true ∧ (fetch rpcUrl req).jsonBody = none)) ∧
    (∀ parsed, (fetch rpcUrl req).ok = true →
      (fetch rpcUrl req).jsonBody = some parsed →
      postJsonRpc fetch rpcUrl req = Except.ok parsed) := by
  have hne : RPC_REQUEST_FAILED ≠ RPC_RESPONSE_EMPTY := by decide
  unfold postJsonRpc
  rcases hok : (fetch rpcUrl req).ok <;>
    rcases hb : (fetch rpcUrl req).jsonBody with _ | parsed <;>
      simp [hok, hb, hne, Ne.symm hne]

/-- Witness for C4 at a concrete failing fetch and a concrete unparsable
body. -/
theorem claim_C4_witness :
    postJsonRpc (fun _ _ => ⟨false, none⟩) ("url".toList) ⟨[], [], [], [], [], 1⟩ =
      Except.error RPC_REQUEST_FAILED ∧
    postJsonRpc (fun _ _ => ⟨true, none⟩) ("url".toList) ⟨[], [], [], [], [], 1⟩ =
      Except.error RPC_RESPONSE_EMPTY :=
  ⟨(claim_C4 _ _ _).1.mpr rfl, (claim_C4 _ _ _).2.1.mpr ⟨rfl, rfl⟩⟩

/-- Claim C8: isGnosisSafe returns true iff the bytecode returned by the
provider differs from the exact string 0x; bytecode 0x yields false and
any other non-empty code string yields true. -/
theorem claim_C8 (getCode : Str → Str → Str) (address rpcUrl : Str) :
    (isGnosisSafe getCode address rpcUrl = true ↔
      getCode rpcUrl address ≠ "0x".toList) ∧
    (getCode rpcUrl address = "0x".toList →
      isGnosisSafe getCode address rpcUrl = false) ∧
    (getCode rpcUrl address ≠ [] → getCode rpcUrl address ≠ "0x".toList →
      isGnosisSafe getCode address rpcUrl = true) := by
  unfold isGnosisSafe
  refine ⟨by simp [bne_iff_ne], fun h => by simp [h], fun _ h2 => by
    simp only [bne_iff_ne]
    exact h2⟩

/-- Witness for C8: bytecode 0x gives false, a non-empty non-0x bytecode
gives true. -/
theorem claim_C8_witness :
    isGnosisSafe (fun _ _ => "0x".toList) ("0xabc".toList) ("url".toList) = false ∧
    isGnosisSafe (fun _ _ => "0x1234".toList) ("0xabc".toList) ("url".toList) = true :=
  ⟨(claim_C8 _ _ _).2.1 rfl, (claim_C8 _ _ _).2.2 (by decide) (by decide)⟩

/-- Claim C9: approvalAll returns true exactly when the mined transaction
receipt has status 1 and the isApproved re-check returns true; in every
other case it throws the error Approval failed (and it never returns
false). -/
theorem claim_C9 (receipt : TxReceipt) (recheckApproved : Bool) :
    (approvalAll receipt recheckApproved = Except.ok true ↔
      (receipt.status = some 1 ∧ recheckApproved = true)) ∧
    ((receipt.status ≠ some 1 ∨ recheckApproved = false) →
      approvalAll receipt recheckApproved =
        Except.error ("Approval failed".toList)) ∧
    (∀ b, approvalAll receipt recheckApproved = Except.ok b → b = true) := by
  unfold approvalAll
  rcases hs : receipt.status == some 1 <;> rcases hr : recheckApproved <;>
    simp_all

/-- Witness for C9: status 1 plus a true re-check succeeds, status 0
fails. -/
theorem claim_C9_witness :
    approvalAll ⟨some 1⟩ true = Except.ok true ∧
    approvalAll ⟨some 0⟩ true = Except.error ("Approval failed".toList) :=
  ⟨(claim_C9 ⟨some 1⟩ true).1.mpr ⟨rfl, rfl⟩,
    (claim_C9 ⟨some 0⟩ true).2.1 (Or.inl (by decide))⟩

/-- Claim C10: for every call of getSafeProxyAddress, an empty-string
override is ignored field by field (the overrides are combined with the JS
or-operator, so the falsy empty string falls back): whenever
options.functionSignature is the empty string the call data uses the
selector of the default signature computeProxyAddress(address), whatever
the factory override is, and whenever options.safeProxyFactoryAddress is
the empty string the request targets the default factory address, whatever
the signature override is. -/
theorem claim_C10 (ethersId : Str → Str) (walletAddress : Str)
    (options : Option SafeProxyOptions) :
    (options.bind SafeProxyOptions.functionSignature = some [] →
      (safeRpcRequest ethersId walletAddress options).paramsData =
        getFunctionSelector ethersId COMPUTE_PROXY_ADDRESS_FUNCTION_SIGNATURE ++
          encodeAddress walletAddress) ∧
    (options.bind SafeProxyOptions.safeProxyFactoryAddress = some [] →
      (safeRpcRequest ethersId walletAddress options).paramsTo =
        SAFE_PROXY_FACTORY_ADDRESS) := by
  constructor
  · intro h
    unfold safeRpcRequest
    simp [h, jsOrStr]
  · intro h
    unfold safeRpcRequest
    simp [h, jsOrStr]

/-- Witness for C10 at two concrete option records where exactly one
override is the empty string: an empty signature with a non-empty factory
override still selects the default signature, and an empty factory with a
non-empty signature override still targets the default factory. -/
theorem claim_C10_witness :
    (safeRpcRequest (fun s => s)
        ("0xAbC0000000000000000000000000000000000DeF".toList)
        (some ⟨some ("0xFFFF".toList), some []⟩)).paramsData =
      getFunctionSelector (fun s => s) COMPUTE_PROXY_ADDRESS_FUNCTION_SIGNATURE ++
        encodeAddress ("0xAbC0000000000000000000000000000000000DeF".toList) ∧
    (safeRpcRequest (fun s => s)
        ("0xAbC0000000000000000000000000000000000DeF".toList)
        (some ⟨some [], some ("proxyFor(address)".toList)⟩)).paramsTo =
      SAFE_PROXY_FACTORY_ADDRESS :=
  ⟨(claim_C10 (fun s => s)
      ("0xAbC0000000000000000000000000000000000DeF".toList)
      (some ⟨some ("0xFFFF".toList), some []⟩)).1 rfl,
   (claim_C10 (fun s => s)
      ("0xAbC0000000000000000000000000000000000DeF".toList)
      (some ⟨some [], some ("proxyFor(address)".toList)⟩)).2 rfl⟩

theorem toLower_zero : Char.toLower '0' = '0' := by decide

theorem toLower_x : Char.toLower 'x' = 'x' := by decide

theorem toLower_X : Char.toLower 'X' = 'x' := by decide

theorem encodeAddress_prefixed (p : Char) (core : Str) (hp : p = 'x' ∨ p = 'X')
    (hlen : core.length = 40) :
    encodeAddress ('0' :: p :: core) = List.replicate 24 '0' ++ jsToLower core := by
  have hmap : (jsToLower core).length = 40 := by simp [jsToLower, hlen]
  unfold encodeAddress
  have hl : jsToLower ('0' :: p :: core) = '0' :: 'x' :: jsToLower core := by
    rcases hp with rfl | rfl <;>
      simp [jsToLower, toLower_zero, toLower_x, toLower_X]
  rw [hl, strip0x_cons0x, jsPadStart_of_len40 _ hmap]

/-- Claim C2: for every syntactically valid 20-byte address string, decoding
the 32-byte padded encoding returns the lowercase form of the address
(encodeAddress already pads to 32 bytes, i.e. 64 hex characters). -/
theorem claim_C2 (addr : Str) (h : isValidAddress addr = true) :
    (encodeAddress addr).length = 64 ∧
    decodeAddress (encodeAddress addr) = jsToLower addr := by
  have key : ∀ p core, (p = 'x' ∨ p = 'X') → core.length = 40 →
      (encodeAddress ('0' :: p :: core)).length = 64 ∧
      decodeAddress (encodeAddress ('0' :: p :: core)) =
        jsToLower ('0' :: p :: core) := by
    intro p core hp hlen
    have hmap : (jsToLower core).length = 40 := by simp [jsToLower, hlen]
    have henc := encodeAddress_prefixed p core hp hlen
    constructor
    · rw [henc]; simp [hmap]
    · rw [henc, decodeAddress_replicate24 _ hmap]
      rcases hp with rfl | rfl <;>
        simp [jsToLower, toLower_zero, toLower_x, toLower_X]
  unfold isValidAddress at h
  split at h
  next core =>
    simp only [Bool.and_eq_true, beq_iff_eq] at h
    exact key 'x' core (Or.inl rfl) h.1
  next core =>
    simp only [Bool.and_eq_true, beq_iff_eq] at h
    exact key 'X' core (Or.inr rfl) h.1
  next => simp at h

/-- Witness for C2 at the spec fixture address. -/
theorem claim_C2_witness :
    isValidAddress ("0xAbC0000000000000000000000000000000000DeF".toList) = true ∧
    decodeAddress (encodeAddress
        ("0xAbC0000000000000000000000000000000000DeF".toList)) =
      jsToLower ("0xAbC0000000000000000000000000000000000DeF".toList) :=
  ⟨by decide, (claim_C2 _ (by decide)).2⟩

/-- Claim C6: for every 40-hex-character address input, with or without a
0x (or 0X) prefix and in any letter case, encodeAddress returns the
64-character string made of 24 zero characters followed by the lowercased
40-character address, with no 0x prefix and with no validation step that
could reject the input. -/
theorem claim_C6 (addr core : Str)
    (hform : addr = '0' :: 'x' :: core ∨ addr = '0' :: 'X' :: core ∨ addr = core)
    (hlen : core.length = 40) (hhex : core.all isHexChar = true) :
    encodeAddress addr = List.replicate 24 '0' ++ jsToLower core ∧
    (encodeAddress addr).length = 64 := by
  have hmap : (jsToLower core).length = 40 := by simp [jsToLower, hlen]
  have henc : encodeAddress addr = List.replicate 24 '0' ++ jsToLower core := by
    rcases hform with rfl | rfl | rfl
    · exact encodeAddress_prefixed 'x' core (Or.inl rfl) hlen
    · exact encodeAddress_prefixed 'X' core (Or.inr rfl) hlen
    · unfold encodeAddress
      rw [strip0x_jsToLower_hex _ hhex, jsPadStart_of_len40 _ hmap]
  exact ⟨henc, by rw [henc]; simp [hmap]⟩

/-- Witness for C6 at a prefix-free mixed-case 40-hex-character input. -/
theorem claim_C6_witness :
    encodeAddress ("AbC0000000000000000000000000000000000DeF".toList) =
      List.replicate 24 '0' ++
        jsToLower ("AbC0000000000000000000000000000000000DeF".toList) :=
  (claim_C6 _ _ (Or.inr (Or.inr rfl)) (by decide) (by decide)).1

/-- Claim C7: decodeAddress returns 0x followed by the last 40 characters
of the prefix-stripped input, with no length validation: for inputs with
fewer than 40 characters after stripping the prefix it returns 0x plus all
remaining characters, a shorter-than-40-hex malformed address. -/
theorem claim_C7 (hexResult : Str) :
    decodeAddress hexResult =
      '0' :: 'x' ::
        (strip0x hexResult).drop ((strip0x hexResult).length - 40) ∧
    (decodeAddress hexResult).length = 2 + min 40 (strip0x hexResult).length ∧
    ((strip0x hexResult).length < 40 →
      decodeAddress hexResult = '0' :: 'x' :: strip0x hexResult) := by
  refine ⟨rfl, ?_, ?_⟩
  · unfold decodeAddress jsSliceLast
    simp only [List.length_cons, List.length_drop]
    omega
  · intro hlt
    unfold decodeAddress jsSliceLast
    rw [Nat.sub_eq_zero_of_le (le_of_lt hlt), List.drop_zero]

/-- Witness for C7 at the short input 0xabc: the malformed 5-character
result 0xabc is returned unchanged. -/
theorem claim_C7_witness :
    decodeAddress ("0xabc".toList) = '0' :: 'x' :: strip0x ("0xabc".toList) :=
  (claim_C7 _).2.2 (by decide)

/-- Claim C3: whenever the parsed JSON-RPC response carries a populated
error object, getSafeProxyAddress fails with the message RPC_ERROR
followed by a colon and the numeric error code, and this check takes
precedence over any result field (the response's result is arbitrary
here). -/
theorem claim_C3 (ethersId : Str → Str) (rpcUrl walletAddress : Str)
    (options : Option SafeProxyOptions) (resp : JsonRpcResponse)
    (err : JsonRpcError) (herr : resp.error = some err) :
    getSafeProxyAddress ethersId (fun _ _ => ⟨true, some resp⟩) rpcUrl
        walletAddress options =
      Except.error (RPC_ERROR ++ ':' :: jsNumToStr err.code) := by
  unfold getSafeProxyAddress postJsonRpc
  simp [herr]

/-- Witness for C3: error code -32000 with a result field also present
yields the message RPC_ERROR:-32000. -/
theorem claim_C3_witness :
    getSafeProxyAddress (fun s => s)
        (fun _ _ => ⟨true, some ⟨none, some ("0x1111".toList),
          some ⟨-32000, "error".toList⟩, none⟩⟩)
        ("url".toList) ("0xAbC0000000000000000000000000000000000DeF".toList)
        none =
      Except.error ("RPC_ERROR:-32000".toList) :=
  (claim_C3 (fun s => s) ("url".toList)
      ("0xAbC0000000000000000000000000000000000DeF".toList) none
      ⟨none, some ("0x1111".toList), some ⟨-32000, "error".toList⟩, none⟩
      ⟨-32000, "error".toList⟩ rfl).trans (congrArg Except.error (by decide))

/-- Claim C5: a parsed response with no error object and no usable result
string (result absent or the empty string) makes getSafeProxyAddress fail
with RPC_INVALID_RESULT. -/
theorem claim_C5 (ethersId : Str → Str) (rpcUrl walletAddress : Str)
    (options : Option SafeProxyOptions) (resp : JsonRpcResponse)
    (hnoerr : resp.error = none)
    (hres : resp.result = none ∨ resp.result = some []) :
    getSafeProxyAddress ethersId (fun _ _ => ⟨true, some resp⟩) rpcUrl
        walletAddress options = Except.error RPC_INVALID_RESULT := by
  unfold getSafeProxyAddress postJsonRpc
  rcases hres with hres | hres <;> simp [hnoerr, hres]

/-- Witness for C5: an empty result string with no error yields
RPC_INVALID_RESULT. -/
theorem claim_C5_witness :
    getSafeProxyAddress (fun s => s) (fun _ _ => ⟨true, some ⟨none, some [], none, none⟩⟩)
        ("url".toList) ("0xAbC0000000000000000000000000000000000DeF".toList)
        none =
      Except.error RPC_INVALID_RESULT :=
  claim_C5 (fun s => s) ("url".toList)
    ("0xAbC0000000000000000000000000000000000DeF".toList) none
    ⟨none, some [], none, none⟩ rfl (Or.inr rfl)

/-- Claim C1 (amended): the request getSafeProxyAddress builds and submits
is exactly the JSON-RPC eth_call envelope with jsonrpc 2.0, block tag
latest and id 1, whose data is the selector of the possibly-overridden
signature concatenated with the encoded owner address, and whose target is
options.safeProxyFactoryAddress when given and non-empty, else the default
factory (a given-but-empty override falls back to the default - see the
counterexample).  The last conjunct states that the outcome depends on the
network only through its answer to that exact request, i.e. that request is
submitted verbatim and is the only one sent. -/
theorem claim_C1_amended (ethersId : Str → Str)
    (fetch : Str → JsonRpcRequest → HttpResponse)
    (rpcUrl walletAddress : Str) (options : Option SafeProxyOptions) :
    (safeRpcRequest ethersId walletAddress options).jsonrpc = "2.0".toList ∧
    (safeRpcRequest ethersId walletAddress options).method = "eth_call".toList ∧
    (safeRpcRequest ethersId walletAddress options).paramsBlockTag =
      "latest".toList ∧
    (safeRpcRequest ethersId walletAddress options).id = 1 ∧
    (∀ sig, options.bind SafeProxyOptions.functionSignature = some sig →
      sig ≠ [] →
      (safeRpcRequest ethersId walletAddress options).paramsData =
        getFunctionSelector ethersId sig ++ encodeAddress walletAddress) ∧
    ((options.bind SafeProxyOptions.functionSignature = none ∨
      options.bind SafeProxyOptions.functionSignature = some []) →
      (safeRpcRequest ethersId walletAddress options).paramsData =
        getFunctionSelector ethersId COMPUTE_PROXY_ADDRESS_FUNCTION_SIGNATURE ++
          encodeAddress walletAddress) ∧
    (∀ fac, options.bind SafeProxyOptions.safeProxyFactoryAddress = some fac →
      fac ≠ [] →
      (safeRpcRequest ethersId walletAddress options).paramsTo = fac) ∧
    ((options.bind SafeProxyOptions.safeProxyFactoryAddress = none ∨
      options.bind SafeProxyOptions.safeProxyFactoryAddress = some []) →
      (safeRpcRequest ethersId walletAddress options).paramsTo =
        SAFE_PROXY_FACTORY_ADDRESS) ∧
    (∀ fetch2 : Str → JsonRpcRequest → HttpResponse,
      fetch2 rpcUrl (safeRpcRequest ethersId walletAddress options) =
        fetch rpcUrl (safeRpcRequest ethersId walletAddress options) →
      getSafeProxyAddress ethersId fetch2 rpcUrl walletAddress options =
        getSafeProxyAddress ethersId fetch rpcUrl walletAddress options) := by
  refine ⟨rfl, rfl, rfl, rfl, ?_, ?_, ?_, ?_, ?_⟩
  · intro sig hsig hne
    unfold safeRpcRequest
    simp [hsig, jsOrStr, hne]
  · intro hdef
    unfold safeRpcRequest
    rcases hdef with h | h <;> simp [h, jsOrStr]
  · intro fac hfac hne
    unfold safeRpcRequest
    simp [hfac, jsOrStr, hne]
  · intro hdef
    unfold safeRpcRequest
    rcases hdef with h | h <;> simp [h, jsOrStr]
  · intro fetch2 hagree
    simp only [getSafeProxyAddress, postJsonRpc]
    rw [hagree]

/-- Counterexample to C1 as stated: with the override
safeProxyFactoryAddress given as the empty string, the submitted request
does not target the given override (the empty string) - it targets the
default factory address instead. -/
theorem claim_C1_counterexample :
    (safeRpcRequest (fun s => s)
        ("0xAbC0000000000000000000000000000000000DeF".toList)
        (some ⟨some [], none⟩)).paramsTo ≠ [] ∧
    (safeRpcRequest (fun s => s)
        ("0xAbC0000000000000000000000000000000000DeF".toList)
        (some ⟨some [], none⟩)).paramsTo = SAFE_PROXY_FACTORY_ADDRESS := by
  exact ⟨by decide, rfl⟩

/-- Witness for the amended C1 at concrete inputs: default options give
id 1 and the default factory target; a non-empty override is used as
given. -/
theorem claim_C1_witness :
    (safeRpcRequest (fun s => s)
        ("0xAbC0000000000000000000000000000000000DeF".toList) none).id = 1 ∧
    (safeRpcRequest (fun s => s)
        ("0xAbC0000000000000000000000000000000000DeF".toList) none).paramsTo =
      SAFE_PROXY_FACTORY_ADDRESS ∧
    (safeRpcRequest (fun s => s)
        ("0xAbC0000000000000000000000000000000000DeF".toList)
        (some ⟨some ("0xFFFF".toList), none⟩)).paramsTo = "0xFFFF".toList :=
  ⟨(claim_C1_amended (fun s => s) (fun _ _ => ⟨true, none⟩) []
      ("0xAbC0000000000000000000000000000000000DeF".toList) none).2.2.2.1,
   (claim_C1_amended (fun s => s) (fun _ _ => ⟨true, none⟩) []
      ("0xAbC0000000000000000000000000000000000DeF".toList)
      none).2.2.2.2.2.2.2.1 (Or.inl rfl),
   (claim_C1_amended (fun s => s) (fun _ _ => ⟨true, none⟩) []
      ("0xAbC0000000000000000000000000000000000DeF".toList)
      (some ⟨some ("0xFFFF".toList), none⟩)).2.2.2.2.2.2.1 _ rfl (by decide)⟩
